import Mathlib

/-
Verification of the InferLLM operator core (src/core/op.h, src/core/graph.h)
against its natural-language specification.

The definitions below are a shallow embedding of the C++ source. Shapes are
lists of natural numbers (C++ std::vector<size_t>), reshape target shapes are
lists of integers (std::vector<int>), tensors are records of name/shape/dtype,
and the kernel is a record exposing supported_optimization. Parts of the
repository that are declared but not defined under src/ (tensor.h, kvstorage.h,
the op .cpp bodies) are modelled from the specification and carry a doc
comment saying so.
-/

namespace InferLLM

/-- PACK_SIZE constant from op.h: the fixed grouping width for repacked
quantized weights. -/
def PACK_SIZE : Nat := 8

/-- Element types; only Int4 is distinguished by the embedded logic. -/
inductive DType where
  | Float32
  | Float16
  | Int32
  | Int8
  | Int4
  deriving DecidableEq, Repr

/-- Kernel optimization methods consulted through supported_optimization. -/
inductive KernelOptMethod where
  | MatmulInt4Reorder
  deriving DecidableEq, Repr

/-- Device kernel interface: reports which optimized code paths are available
(kernel.h is external to the core; only this query is consumed). -/
structure Kernel where
  supported_optimization : KernelOptMethod → Bool

/-- Static metadata of a Tensor: its name, shape and element type. -/
structure TensorMeta where
  name : String
  shape : List Nat
  dtype : DType
  deriving DecidableEq, Repr

/-- Placeholder tensor used as the default of List.getD; the C++ code indexes
weights()[0] etc. which exist by construction. -/
def dummyTensor : TensorMeta := ⟨"", [], DType.Float32⟩

/-- MatMul::deduce_output_shape (op.h lines 150-159): M is input_shape[0] when
the input has rank 2, otherwise input_shape[1]; N is weight_shape[0], times
PACK_SIZE when the weight is packed. -/
def matMulDeduceOutputShape (weightShape inputShape : List Nat)
    (weightPacked : Bool) : List Nat :=
  let M := if inputShape.length = 2 then inputShape.getD 0 0 else inputShape.getD 1 0
  let N := weightShape.getD 0 0
  let N := if weightPacked then N * PACK_SIZE else N
  [M, N]

/-- MatMulLast::deduce_output_shape (op.h lines 191-202): only the last token
is computed, so M = 1; N is weight_shape[0], times PACK_SIZE when packed.
The input shape is read but unused in the source. -/
def matMulLastDeduceOutputShape (weightShape inputShape : List Nat)
    (weightPacked : Bool) : List Nat :=
  let M := 1
  let K := weightShape.getD 1 0
  let N := weightShape.getD 0 0
  let N := if weightPacked then N * PACK_SIZE else N
  let _ := inputShape
  let _ := K
  [M, N]

/-- MatMul::need_preprocess_weight (op.h lines 161-174): true only for the
operator's first weight (compared by name), when the kernel reports
MatmulInt4Reorder, the dtype is Int4, and shape[0] is a multiple of
PACK_SIZE. -/
def matMulNeedPreprocessWeight (kernel : Kernel) (weight0Name : String)
    (w : TensorMeta) : Bool :=
  if w.name = weight0Name then
    let M := w.shape.getD 0 0
    let optimized := kernel.supported_optimization KernelOptMethod.MatmulInt4Reorder
    let int4 := decide (w.dtype = DType.Int4)
    optimized && int4 && decide (M % PACK_SIZE = 0)
  else false

/-- MatMulLast::need_preprocess_weight (op.h line 204): always false. -/
def matMulLastNeedPreprocessWeight (w : TensorMeta) : Bool :=
  let _ := w
  false

/-- AttentionBase::need_preprocess_weight (op.h lines 388-404): the tensor must
be (by name) the fused QKV weight, or one of the separate Q/K/V weights, and
the kernel optimization, Int4 dtype and PACK_SIZE conditions must all hold. -/
def attnNeedPreprocessWeight (kernel : Kernel) (opWeights : List TensorMeta)
    (fused_weights : Bool) (w : TensorMeta) : Bool :=
  let int4 := decide (w.dtype = DType.Int4)
  let M := w.shape.getD 0 0
  let optimized := kernel.supported_optimization KernelOptMethod.MatmulInt4Reorder
  let right_weight :=
    if fused_weights then
      decide (w.name = (opWeights.getD 0 dummyTensor).name)
    else
      decide (w.name = (opWeights.getD 0 dummyTensor).name) ||
      decide (w.name = (opWeights.getD 1 dummyTensor).name) ||
      decide (w.name = (opWeights.getD 2 dummyTensor).name)
  optimized && int4 && right_weight && decide (M % PACK_SIZE = 0)

/-- First loop of Reshape::deduce_output_shape (op.h lines 231-239): walk the
target dims, divide the element count by each fixed dim (failing when it does
not divide), and count the wildcard (-1) entries. Returns the remaining
length and the wildcard count. -/
def reshapeFixedPass : Nat → List Int → Option (Nat × Nat)
  | len, [] => some (len, 0)
  | len, d :: rest =>
    if d ≠ -1 then
      if len % d.toNat = 0 then reshapeFixedPass (len / d.toNat) rest
      else none
    else
      (reshapeFixedPass len rest).map (fun p => (p.1, p.2 + 1))

/-- Reshape::deduce_output_shape (op.h lines 226-247): the INFER_ASSERTs are
modelled as Option failure. The wildcard count must be exactly one; the second
loop fills the wildcard position with the remaining length. -/
def reshapeDeduceOutputShape (len : Nat) (target : List Int) :
    Option (List Nat) :=
  match reshapeFixedPass len target with
  | none => none
  | some (rem, count) =>
    if count = 1 then
      some (target.map (fun d => if d = -1 then rem else d.toNat))
    else none

/-- Product of the non-wildcard target dimensions, used to characterize
reshape success. -/
def reshapeFixedProd (target : List Int) : Nat :=
  ((target.filter (fun d => d ≠ -1)).map Int.toNat).prod

/-- Modelled from the spec: kvstorage.h is not under src/. A KvStorage has a
fixed-capacity buffer created from a shape vector and dtype, a current logical
length of valid past positions (the id), and the buffer contents themselves
(rows of some abstract element type). -/
structure KvStorage (α : Type) where
  shape : List Nat
  dtype : DType
  id : Nat
  buf : List α

/-- Modelled from the spec: append advances the logical length by the number
of new tokens (AttentionBase::end_execute calls add_id(token_len)). -/
def KvStorage.add_id {α : Type} (s : KvStorage α) (n : Nat) : KvStorage α :=
  { s with id := s.id + n }

/-- Modelled from the spec: a reset sets the logical length back to zero
without reallocating or touching the buffer. -/
def KvStorage.reset_id {α : Type} (s : KvStorage α) : KvStorage α :=
  { s with id := 0 }

/-- Modelled from the spec: pre_execute grows the physical allocation to
accommodate the new tokens; the logical length is unchanged. -/
def KvStorage.prepare_data_with_length {α : Type} (s : KvStorage α) (n : Nat) :
    KvStorage α :=
  let _ := n
  s

/-- Modelled from the spec: recall_data releases workspace-only buffers; the
logical cache state is unchanged. -/
def KvStorage.recall_data {α : Type} (s : KvStorage α) : KvStorage α := s

/-- Cache-relevant runtime state of an AttentionBase operator: its weight
tensors and the two KvStorage instances it owns. -/
structure AttentionCtx (α : Type) where
  weights : List TensorMeta
  kstorage : KvStorage α
  vstorage : KvStorage α

/-- AttentionBase::pre_execute (op.h lines 351-363), restricted to cache
state: prepares both storages for token_len new rows (weight/output buffer
preparation acts on per-tensor state and is modelled separately below). -/
def attnPreExecute {α : Type} (token_len : Nat) (st : AttentionCtx α) :
    AttentionCtx α :=
  { st with
    kstorage := st.kstorage.prepare_data_with_length token_len
    vstorage := st.vstorage.prepare_data_with_length token_len }

/-- Overwrite buf at position pos with the given rows, keeping the rest. -/
def writeAt {α : Type} (buf : List α) (pos : Nat) (rows : List α) : List α :=
  buf.take pos ++ rows ++ buf.drop (pos + rows.length)

/-- Modelled from the spec: the attention execute bodies (op.cpp) are not
under src/. Per the spec, execute computes new K/V rows for the incoming
tokens from the weights and input, writes them at the cache's current logical
length offset, and computes attention over the full valid range
[0, current_length + new_length); qproj/kproj/vproj/attnFn abstract the
deterministic numeric kernels. -/
def attnExecute {α ρ β : Type} (qproj kproj vproj : List TensorMeta → List ρ → List α)
    (attnFn : List α → List α → List α → β) (input : List ρ)
    (st : AttentionCtx α) : AttentionCtx α × β :=
  let newK := kproj st.weights input
  let newV := vproj st.weights input
  let q := qproj st.weights input
  let kbuf := writeAt st.kstorage.buf st.kstorage.id newK
  let vbuf := writeAt st.vstorage.buf st.vstorage.id newV
  let out := attnFn (kbuf.take (st.kstorage.id + newK.length))
      (vbuf.take (st.vstorage.id + newV.length)) q
  ({ st with
      kstorage := { st.kstorage with buf := kbuf }
      vstorage := { st.vstorage with buf := vbuf } }, out)

/-- AttentionBase::end_execute (op.h lines 367-379), cache part: token_len is
inputs()[0]->shape()[0], i.e. the number of rows of the first input; both
storages advance their logical length by token_len and release workspace
data. -/
def attnEndExecute {α ρ : Type} (input : List ρ) (st : AttentionCtx α) :
    AttentionCtx α :=
  let token_len := input.length
  { st with
    kstorage := (st.kstorage.add_id token_len).recall_data
    vstorage := (st.vstorage.add_id token_len).recall_data }

/-- AttentionBase::reset_ctx (op.h lines 383-386): reset both storages' ids. -/
def attnResetCtx {α : Type} (st : AttentionCtx α) : AttentionCtx α :=
  { st with
    kstorage := st.kstorage.reset_id
    vstorage := st.vstorage.reset_id }

/-- One full operator pass over an attention op: pre_execute, execute,
end_execute, on an input batch of rows. -/
def attnStep {α ρ β : Type} (qproj kproj vproj : List TensorMeta → List ρ → List α)
    (attnFn : List α → List α → List α → β) (input : List ρ)
    (st : AttentionCtx α) : AttentionCtx α :=
  attnEndExecute input
    ((attnExecute qproj kproj vproj attnFn input
        (attnPreExecute input.length st)).1)

/-- Runtime lifetime state of a single Tensor, modelled from the spec
(tensor.h is not under src/): the current pending-consumer count, the declared
consumer count, the shared flag and whether the buffer is materialized. -/
structure TensorRT where
  curr_user_count : Nat
  usr_count : Nat
  shared : Bool
  prepared : Bool
  deriving DecidableEq, Repr

/-- Modelled from the spec: prepare_data materializes the buffer. -/
def TensorRT.prepare_data (t : TensorRT) : TensorRT :=
  { t with prepared := true }

/-- Modelled from the spec: resume_user_count resets the pending-consumer
count to the originally declared number. -/
def TensorRT.resume_user_count (t : TensorRT) : TensorRT :=
  { t with curr_user_count := t.usr_count }

/-- OpBase::pre_execute (op.h lines 27-37), acting on one output tensor: when
the current user count is zero and the tensor is not shared, resume the user
count and prepare the data; otherwise leave it alone. -/
def opBasePreExecuteOutput (t : TensorRT) : TensorRT :=
  if t.curr_user_count = 0 ∧ t.shared = false then
    t.resume_user_count.prepare_data
  else t

/-- AttentionBase::pre_execute (op.h lines 356-360), acting on the output
tensor: when the current user count is zero, prepare the data and resume the
user count; the shared flag is not consulted. -/
def attnPreExecuteOutput (t : TensorRT) : TensorRT :=
  if t.curr_user_count = 0 then
    t.prepare_data.resume_user_count
  else t

/-- Modelled from the spec: Tensor::add_user increments the pending-consumer
count of tensor t in a map from tensor ids to counts. -/
def addUser (c : Nat → Int) (t : Nat) : Nat → Int :=
  fun s => if s = t then c s + 1 else c s

/-- Modelled from the spec: Tensor::decrease_curr_user_count decrements the
pending-consumer count of tensor t. -/
def decreaseCurrUserCount (c : Nat → Int) (t : Nat) : Nat → Int :=
  fun s => if s = t then c s - 1 else c s

/-- OpBase::OpBase (op.h lines 20-25): the constructor calls add_user once per
input tensor occurrence. An operator is represented by the list of ids of its
input tensors. -/
def opBaseCtorUsers (inputs : List Nat) (c : Nat → Int) : Nat → Int :=
  inputs.foldl addUser c

/-- OpBase::end_execute (op.h lines 41-45): decrement the current user count
once per input tensor occurrence. -/
def opBaseEndExecuteUsers (inputs : List Nat) (c : Nat → Int) : Nat → Int :=
  inputs.foldl decreaseCurrUserCount c

/-- Wiring a whole graph: construct every operator in order, starting from
all-zero counts. -/
def wireGraph (ops : List (List Nat)) : Nat → Int :=
  ops.foldl (fun c op => opBaseCtorUsers op c) (fun _ => 0)

/-- Running the end_execute stage of each operator of a pass, in order. -/
def runEndExecutes (ops : List (List Nat)) (c : Nat → Int) : Nat → Int :=
  ops.foldl (fun c op => opBaseEndExecuteUsers op c) c

/-- Number of input slots across the given operators naming tensor t. -/
def inputOccurrences (ops : List (List Nat)) (t : Nat) : Nat :=
  (ops.map (fun op => op.count t)).sum

/-- Runtime state of a Glm2MultiQueryAttention operator as built by its
constructor (op.h lines 471-511). -/
structure Glm2State (α : Type) where
  embd : Nat
  head : Nat
  ctx : Nat
  layer_id : Nat
  query_group_num : Nat
  fused_weights : Bool
  bias : Bool
  weights : List TensorMeta
  kstorage : KvStorage α
  vstorage : KvStorage α

/-- Glm2MultiQueryAttention::Glm2MultiQueryAttention (op.h lines 471-511):
INFER_ASSERT(m_fused_weights) is modelled as Option failure; the fused weight
has shape [embd + query_group_num * 2 * embd / head, embd] (set_shape without
a dtype keeps the tensor's default dtype, immaterial here), and both storages
are created with shape [nr_ctx, (embd / head) * query_group_num] and the
compute dtype. kbuf/vbuf stand for the freshly allocated (uninitialized)
cache buffers. -/
def glm2MultiQueryAttention (α : Type) (name : String)
    (embd query_group_num nr_ctx head layer_id : Nat) (compt_type : DType)
    (fused_weights bias : Bool) (kbuf vbuf : List α) : Option (Glm2State α) :=
  if fused_weights then
    let weight_dim0 := embd + query_group_num * 2 * embd / head
    let weight_fused : TensorMeta :=
      ⟨name ++ ".wqkv.weight", [weight_dim0, embd], DType.Float32⟩
    let weights :=
      if bias then
        [weight_fused, ⟨name ++ ".wqkv.bias", [weight_dim0], DType.Float32⟩]
      else [weight_fused]
    let sub_dim := embd / head
    some
      { embd := embd, head := head, ctx := nr_ctx, layer_id := layer_id
        query_group_num := query_group_num, fused_weights := fused_weights
        bias := bias, weights := weights
        kstorage := ⟨[nr_ctx, sub_dim * query_group_num], compt_type, 0, kbuf⟩
        vstorage := ⟨[nr_ctx, sub_dim * query_group_num], compt_type, 0, vbuf⟩ }
  else none

/-- C3 counterexample: on the rank-3 input [2, 5, 16] with weight [32, 16]
the code produces output shape [5, 32], not [2, 32] as the claim's "leading
dimension" reading requires: for inputs of rank other than 2 the code takes
the second dimension, not the first. -/
theorem matmul_deduce_rank3_counterexample :
    matMulDeduceOutputShape [32, 16] [2, 5, 16] false = [5, 32] ∧
    matMulDeduceOutputShape [32, 16] [2, 5, 16] false ≠ [2, 32] := by
  constructor
  · rfl
  · decide

/-- C3 (amended): for a rank-2 input [M, K] and weight [N, K] the output shape
is [M, N] (N scaled by PACK_SIZE when the weight is packed as [N/pack, K]);
for inputs of rank three or more, the code uses the second input dimension as
M rather than the leading one; in particular input [5, 16] with weight
[32, 16] yields [5, 32]. -/
theorem matmul_deduce_output_shape_amended :
    (∀ M K N : Nat, matMulDeduceOutputShape [N, K] [M, K] false = [M, N]) ∧
    (∀ M K n : Nat,
        matMulDeduceOutputShape [n, K] [M, K] true = [M, n * PACK_SIZE]) ∧
    (∀ (a b c N K : Nat) (rest : List Nat) (packed : Bool),
        matMulDeduceOutputShape [N, K] (a :: b :: c :: rest) packed =
          [b, if packed then N * PACK_SIZE else N]) ∧
    matMulDeduceOutputShape [32, 16] [5, 16] false = [5, 32] := by
  refine ⟨fun M K N => rfl, fun M K n => rfl, fun a b c N K rest packed => ?_, rfl⟩
  simp [matMulDeduceOutputShape]

/-- C4: the last-token-only matrix-multiply always deduces output leading
dimension 1, independent of the input shape; the second dimension is the
weight's leading dimension, scaled by PACK_SIZE when packed; on weight
[32, 16] the result is [1, 32] for every input. -/
theorem matmul_last_deduce_output_shape :
    (∀ (w i j : List Nat) (p : Bool),
        matMulLastDeduceOutputShape w i p = matMulLastDeduceOutputShape w j p) ∧
    (∀ (w i : List Nat) (p : Bool),
        (matMulLastDeduceOutputShape w i p).getD 0 0 = 1) ∧
    (∀ (N K : Nat) (i : List Nat),
        matMulLastDeduceOutputShape [N, K] i false = [1, N]) ∧
    (∀ (n K : Nat) (i : List Nat),
        matMulLastDeduceOutputShape [n, K] i true = [1, n * PACK_SIZE]) ∧
    (∀ i : List Nat, matMulLastDeduceOutputShape [32, 16] i false = [1, 32]) := by
  exact ⟨fun w i j p => rfl, fun w i p => rfl, fun N K i => rfl,
    fun n K i => rfl, fun i => rfl⟩

/-- C6: need_preprocess_weight of MatMul and of AttentionBase returns true
exactly when the queried tensor is (by name) the operator's matmul weight,
respectively one of its Q/K/V (or fused QKV) weights, its dtype is Int4, its
leading dimension is a multiple of PACK_SIZE, and the kernel reports the
MatmulInt4Reorder optimization. -/
theorem need_preprocess_weight_characterization :
    (∀ (kernel : Kernel) (n : String) (w : TensorMeta),
        matMulNeedPreprocessWeight kernel n w = true ↔
          (w.name = n ∧ w.dtype = DType.Int4 ∧ PACK_SIZE ∣ w.shape.getD 0 0 ∧
            kernel.supported_optimization KernelOptMethod.MatmulInt4Reorder = true)) ∧
    (∀ (kernel : Kernel) (ws : List TensorMeta) (fused : Bool) (w : TensorMeta),
        attnNeedPreprocessWeight kernel ws fused w = true ↔
          (kernel.supported_optimization KernelOptMethod.MatmulInt4Reorder = true ∧
            w.dtype = DType.Int4 ∧
            (if fused then w.name = (ws.getD 0 dummyTensor).name
             else w.name = (ws.getD 0 dummyTensor).name ∨
                  w.name = (ws.getD 1 dummyTensor).name ∨
                  w.name = (ws.getD 2 dummyTensor).name) ∧
            PACK_SIZE ∣ w.shape.getD 0 0)) := by
  constructor
  · intro kernel n w
    unfold matMulNeedPreprocessWeight
    split
    · simp only [Bool.and_eq_true, decide_eq_true_eq, Nat.dvd_iff_mod_eq_zero]
      tauto
    · simp only [Bool.false_eq_true, false_iff]
      tauto
  · intro kernel ws fused w
    cases fused <;>
      simp [attnNeedPreprocessWeight, Nat.dvd_iff_mod_eq_zero] <;>
      tauto

/-- C9: AttentionBase::pre_execute re-prepares its output whenever the current
user count is zero, without consulting the shared flag, while
OpBase::pre_execute skips outputs marked shared; a shared output with zero
pending users is re-prepared by the attention override but left untouched by
the base protocol. -/
theorem attention_pre_execute_ignores_shared :
    (∀ u p, attnPreExecuteOutput ⟨0, u, true, p⟩ = ⟨u, u, true, true⟩) ∧
    (∀ u p, opBasePreExecuteOutput ⟨0, u, true, p⟩ = ⟨0, u, true, p⟩) ∧
    (∀ u p, opBasePreExecuteOutput ⟨0, u, false, p⟩ = ⟨u, u, false, true⟩) ∧
    (∀ c u s p, attnPreExecuteOutput ⟨c, u, s, p⟩ =
        { attnPreExecuteOutput ⟨c, u, true, p⟩ with shared := s }) := by
  refine ⟨fun u p => rfl, fun u p => ?_, fun u p => rfl, fun c u s p => ?_⟩
  · simp [opBasePreExecuteOutput]
  · unfold attnPreExecuteOutput
    by_cases hc : c = 0 <;>
      simp [hc, TensorRT.prepare_data, TensorRT.resume_user_count]

/-- C10: MatMulLast::need_preprocess_weight returns false for every tensor;
in particular it returns false on a weight for which the MatMul policy (Int4
dtype, leading dimension a multiple of PACK_SIZE, optimization available)
would return true, so the output-head weight is never repacked. -/
theorem matmul_last_never_preprocesses_weight :
    (∀ w : TensorMeta, matMulLastNeedPreprocessWeight w = false) ∧
    matMulNeedPreprocessWeight ⟨fun _ => true⟩ "head.weight"
      ⟨"head.weight", [32, 16], DType.Int4⟩ = true ∧
    matMulLastNeedPreprocessWeight ⟨"head.weight", [32, 16], DType.Int4⟩ = false := by
  exact ⟨fun w => rfl, rfl, rfl⟩

/-- Helper: the first reshape loop succeeds exactly when the product of the
fixed target dimensions divides the element count, leaving the quotient and
the number of wildcard entries. -/
theorem reshapeFixedPass_eq (target : List Int) : ∀ len : Nat,
    reshapeFixedPass len target =
      if reshapeFixedProd target ∣ len then
        some (len / reshapeFixedProd target, target.count (-1))
      else none := by
  induction target with
  | nil =>
    intro len
    simp [reshapeFixedPass, reshapeFixedProd]
  | cons d rest ih =>
    intro len
    by_cases hd : d = -1
    · subst hd
      have hprod : reshapeFixedProd (-1 :: rest) = reshapeFixedProd rest := by
        simp [reshapeFixedProd]
      have hcount : (-1 :: rest).count (-1) = rest.count (-1) + 1 := by
        simp [List.count_cons]
      rw [show reshapeFixedPass len (-1 :: rest) =
            (reshapeFixedPass len rest).map (fun p => (p.1, p.2 + 1)) by
          simp [reshapeFixedPass]]
      rw [ih len, hprod, hcount]
      by_cases hdvd : reshapeFixedProd rest ∣ len <;> simp [hdvd]
    · have hprod : reshapeFixedProd (d :: rest) =
          d.toNat * reshapeFixedProd rest := by
        simp [reshapeFixedProd, hd]
      have hcount : (d :: rest).count (-1) = rest.count (-1) := by
        simp [List.count_cons, hd]
      rw [show reshapeFixedPass len (d :: rest) =
            (if len % d.toNat = 0 then reshapeFixedPass (len / d.toNat) rest
             else none) by
          simp [reshapeFixedPass, hd]]
      rw [hprod, hcount]
      by_cases h1 : d.toNat ∣ len
      · rw [if_pos (Nat.dvd_iff_mod_eq_zero.mp h1), ih (len / d.toNat)]
        rw [Nat.div_div_eq_div_mul]
        by_cases h2 : reshapeFixedProd rest ∣ len / d.toNat
        · rw [if_pos h2, if_pos ((Nat.dvd_div_iff_mul_dvd h1).mp h2)]
        · rw [if_neg h2, if_neg fun hc => h2 ((Nat.dvd_div_iff_mul_dvd h1).mpr hc)]
      · rw [if_neg fun hc => h1 (Nat.dvd_iff_mod_eq_zero.mpr hc),
          if_neg fun hc => h1 (dvd_trans (dvd_mul_right _ _) hc)]

/-- Helper: closed form of Reshape::deduce_output_shape: it succeeds exactly
when the target has exactly one wildcard and the fixed dimensions' product
divides the element count, and the wildcard is solved as the quotient. -/
theorem reshapeDeduce_eq (len : Nat) (target : List Int) :
    reshapeDeduceOutputShape len target =
      if target.count (-1) = 1 ∧ reshapeFixedProd target ∣ len then
        some (target.map
          (fun d => if d = -1 then len / reshapeFixedProd target else d.toNat))
      else none := by
  unfold reshapeDeduceOutputShape
  rw [reshapeFixedPass_eq]
  by_cases h : reshapeFixedProd target ∣ len
  · rw [if_pos h]
    by_cases hc : target.count (-1) = 1 <;> simp [hc, h]
  · rw [if_neg h]
    simp [h]

/-- C5 counterexample: the target [3, 4] has zero wildcards (so "at most one")
and 12 elements divide evenly (12 % 3 = 0 and 4 % 4 = 0), yet the code
rejects it: the assertion demands exactly one wildcard, not at most one. -/
theorem reshape_zero_wildcard_counterexample :
    reshapeDeduceOutputShape 12 [3, 4] = none ∧
    (12 : Nat) % 3 = 0 ∧ (12 / 3 : Nat) % 4 = 0 := by
  exact ⟨rfl, rfl, rfl⟩

/-- C5 (amended): deduce_output_shape accepts a target shape with exactly one
wildcard dimension (-1), solving it from the element count, and fails fatally
whenever the number of wildcards differs from one (including zero wildcards)
or the element count is not evenly divisible by the fixed target dimensions;
target [-1, 4] on a 12-element input yields [3, 4]. -/
theorem reshape_deduce_characterization :
    (∀ (len : Nat) (target : List Int),
        reshapeDeduceOutputShape len target =
          if target.count (-1) = 1 ∧ reshapeFixedProd target ∣ len then
            some (target.map
              (fun d => if d = -1 then len / reshapeFixedProd target
                        else d.toNat))
          else none) ∧
    reshapeDeduceOutputShape 12 [-1, 4] = some [3, 4] ∧
    reshapeDeduceOutputShape 12 [-1, -1] = none ∧
    reshapeDeduceOutputShape 12 [-1, 5] = none := by
  exact ⟨reshapeDeduce_eq, rfl, rfl, rfl⟩

/-- Helper: one full attention pass advances both cache ids by the batch
length. -/
theorem attnStep_cache_id {α ρ β : Type}
    (qproj kproj vproj : List TensorMeta → List ρ → List α)
    (attnFn : List α → List α → List α → β) (input : List ρ)
    (st : AttentionCtx α) :
    (attnStep qproj kproj vproj attnFn input st).kstorage.id =
      st.kstorage.id + input.length ∧
    (attnStep qproj kproj vproj attnFn input st).vstorage.id =
      st.vstorage.id + input.length := by
  constructor <;>
    simp [attnStep, attnEndExecute, attnExecute, attnPreExecute,
      KvStorage.add_id, KvStorage.recall_data, KvStorage.prepare_data_with_length]

/-- Helper: folding full attention passes over a batch list adds the total
token count to both cache ids. -/
theorem foldl_attnStep_cache_id {α ρ β : Type}
    (qproj kproj vproj : List TensorMeta → List ρ → List α)
    (attnFn : List α → List α → List α → β) :
    ∀ (batches : List (List ρ)) (st : AttentionCtx α),
      (batches.foldl (fun s b => attnStep qproj kproj vproj attnFn b s)
          st).kstorage.id = st.kstorage.id + (batches.map List.length).sum ∧
      (batches.foldl (fun s b => attnStep qproj kproj vproj attnFn b s)
          st).vstorage.id = st.vstorage.id + (batches.map List.length).sum := by
  intro batches
  induction batches with
  | nil => intro st; simp
  | cons b bs ih =>
    intro st
    have hstep := attnStep_cache_id qproj kproj vproj attnFn b st
    have hrec := ih (attnStep qproj kproj vproj attnFn b st)
    simp only [List.foldl_cons, List.map_cons, List.sum_cons]
    constructor
    · rw [hrec.1, hstep.1]; omega
    · rw [hrec.2, hstep.2]; omega

/-- C1: every full attention pass (pre_execute, execute, end_execute) on a
batch of b rows advances both caches' logical lengths by exactly b — the
first input tensor's leading dimension — via end_execute alone (pre_execute
and execute leave the logical lengths unchanged); hence after batches
b1, ..., bk since the last reset, both cache lengths equal b1 + ... + bk. -/
theorem attention_cache_length_advances :
    (∀ (α ρ : Type) (input : List ρ) (st : AttentionCtx α),
        (attnEndExecute input st).kstorage.id = st.kstorage.id + input.length ∧
        (attnEndExecute input st).vstorage.id = st.vstorage.id + input.length) ∧
    (∀ (α : Type) (token_len : Nat) (st : AttentionCtx α),
        (attnPreExecute token_len st).kstorage.id = st.kstorage.id ∧
        (attnPreExecute token_len st).vstorage.id = st.vstorage.id) ∧
    (∀ (α ρ β : Type) (qproj kproj vproj : List TensorMeta → List ρ → List α)
        (attnFn : List α → List α → List α → β) (input : List ρ)
        (st : AttentionCtx α),
        (attnExecute qproj kproj vproj attnFn input st).1.kstorage.id =
          st.kstorage.id ∧
        (attnExecute qproj kproj vproj attnFn input st).1.vstorage.id =
          st.vstorage.id) ∧
    (∀ (α ρ β : Type) (qproj kproj vproj : List TensorMeta → List ρ → List α)
        (attnFn : List α → List α → List α → β) (batches : List (List ρ))
        (st : AttentionCtx α),
        (batches.foldl (fun s b => attnStep qproj kproj vproj attnFn b s)
            (attnResetCtx st)).kstorage.id = (batches.map List.length).sum ∧
        (batches.foldl (fun s b => attnStep qproj kproj vproj attnFn b s)
            (attnResetCtx st)).vstorage.id = (batches.map List.length).sum) := by
  refine ⟨fun α ρ input st => ⟨rfl, rfl⟩, fun α tl st => ⟨rfl, rfl⟩,
    fun α ρ β qproj kproj vproj attnFn input st => ⟨rfl, rfl⟩,
    fun α ρ β qproj kproj vproj attnFn batches st => ?_⟩
  have h := foldl_attnStep_cache_id qproj kproj vproj attnFn batches
    (attnResetCtx st)
  have hk : (attnResetCtx st).kstorage.id = 0 := rfl
  have hv : (attnResetCtx st).vstorage.id = 0 := rfl
  rw [hk] at h
  rw [hv] at h
  simpa using h

/-- C2: reset_ctx zeroes both caches' logical lengths and changes nothing
else — buffers, shapes, dtypes and weights are untouched — and an execute at
nr_past = 0 after reset produces the same output as a fresh instance with the
same weights would, whatever the (uninitialized) fresh cache buffers contain. -/
theorem reset_ctx_zeroes_and_execute_matches_fresh :
    (∀ (α : Type) (st : AttentionCtx α),
        (attnResetCtx st).kstorage.id = 0 ∧
        (attnResetCtx st).vstorage.id = 0 ∧
        (attnResetCtx st).kstorage.buf = st.kstorage.buf ∧
        (attnResetCtx st).vstorage.buf = st.vstorage.buf ∧
        (attnResetCtx st).kstorage.shape = st.kstorage.shape ∧
        (attnResetCtx st).vstorage.shape = st.vstorage.shape ∧
        (attnResetCtx st).kstorage.dtype = st.kstorage.dtype ∧
        (attnResetCtx st).vstorage.dtype = st.vstorage.dtype ∧
        (attnResetCtx st).weights = st.weights) ∧
    (∀ (α ρ β : Type) (qproj kproj vproj : List TensorMeta → List ρ → List α)
        (attnFn : List α → List α → List α → β) (input : List ρ)
        (st : AttentionCtx α) (ks vs : List Nat) (kd vd : DType)
        (kbuf vbuf : List α),
        (attnExecute qproj kproj vproj attnFn input (attnResetCtx st)).2 =
          (attnExecute qproj kproj vproj attnFn input
              ⟨st.weights, ⟨ks, kd, 0, kbuf⟩, ⟨vs, vd, 0, vbuf⟩⟩).2) := by
  refine ⟨fun α st => ⟨rfl, rfl, rfl, rfl, rfl, rfl, rfl, rfl, rfl⟩,
    fun α ρ β qproj kproj vproj attnFn input st ks vs kd vd kbuf vbuf => ?_⟩
  simp only [attnExecute, attnResetCtx, KvStorage.reset_id, writeAt]
  simp [List.take_append]

/-- Helper: with head ∣ embd, dividing before or after multiplying by the
group count agrees. -/
theorem glm2_width_div_mul (embd head g : Nat) (h : head ∣ embd) :
    embd / head * g = embd * g / head := by
  rcases h with ⟨k, rfl⟩
  rcases Nat.eq_zero_or_pos head with h0 | hpos
  · subst h0; simp
  · rw [Nat.mul_div_cancel_left k hpos, Nat.mul_assoc,
      Nat.mul_div_cancel_left _ hpos]

/-- C7: the multi-query-group attention constructor fails on fused_weights =
false, and on fused_weights = true it sizes both caches as context_length
rows of width embd * group / head and the fused QKV weight with leading
dimension embd + 2 * group * embd / head and second dimension embd. -/
theorem glm2_multiquery_ctor_spec
    (embd query_group_num nr_ctx head layer_id : Nat) (h : head ∣ embd) :
    (∀ (α : Type) (name : String) (ct : DType) (b : Bool) (kbuf vbuf : List α),
        glm2MultiQueryAttention α name embd query_group_num nr_ctx head
          layer_id ct false b kbuf vbuf = none) ∧
    (∀ (α : Type) (name : String) (ct : DType) (b : Bool) (kbuf vbuf : List α)
        (st : Glm2State α),
        glm2MultiQueryAttention α name embd query_group_num nr_ctx head
          layer_id ct true b kbuf vbuf = some st →
        st.kstorage.shape = [nr_ctx, embd * query_group_num / head] ∧
        st.vstorage.shape = [nr_ctx, embd * query_group_num / head] ∧
        (st.weights.getD 0 dummyTensor).shape =
          [embd + 2 * query_group_num * embd / head, embd]) := by
  constructor
  · intro α name ct b kbuf vbuf
    simp [glm2MultiQueryAttention]
  · intro α name ct b kbuf vbuf st hsome
    simp only [glm2MultiQueryAttention, if_true] at hsome
    rw [Option.some_inj] at hsome
    subst hsome
    refine ⟨?_, ?_, ?_⟩
    · show [nr_ctx, embd / head * query_group_num] =
        [nr_ctx, embd * query_group_num / head]
      rw [glm2_width_div_mul embd head query_group_num h]
    · show [nr_ctx, embd / head * query_group_num] =
        [nr_ctx, embd * query_group_num / head]
      rw [glm2_width_div_mul embd head query_group_num h]
    · cases b <;>
        simp only [Bool.false_eq_true, Bool.true_eq_false, if_true, if_false,
          ite_true, ite_false, List.getD_cons_zero] <;>
        rw [show query_group_num * 2 * embd = 2 * query_group_num * embd by ring]

/-- C7 witness: a concrete valid configuration (embd 16, 2 groups, 4 heads)
on which the constructor refuses non-fused weights and, with fused weights,
produces the claimed cache and weight shapes. -/
theorem glm2_multiquery_ctor_spec_witness :
    ((4 : Nat) ∣ 16) ∧
    glm2MultiQueryAttention Unit "blk0.attn" 16 2 8 4 0 DType.Float32 false
      false [] [] = none :=
  ⟨by decide,
    (glm2_multiquery_ctor_spec 16 2 8 4 0 (by decide)).1 Unit "blk0.attn"
      DType.Float32 false [] []⟩

/-- Helper: constructing an operator adds one pending user per occurrence of
the tensor among the operator's inputs. -/
theorem opBaseCtorUsers_apply : ∀ (inputs : List Nat) (c : Nat → Int) (t : Nat),
    opBaseCtorUsers inputs c t = c t + inputs.count t := by
  intro inputs
  induction inputs with
  | nil => intro c t; simp [opBaseCtorUsers]
  | cons i is ih =>
    intro c t
    rw [show opBaseCtorUsers (i :: is) c = opBaseCtorUsers is (addUser c i)
        from rfl, ih]
    by_cases h : t = i <;> simp [addUser, h, List.count_cons] <;> omega

/-- Helper: an operator's end_execute removes one pending user per occurrence
of the tensor among the operator's inputs. -/
theorem opBaseEndExecuteUsers_apply :
    ∀ (inputs : List Nat) (c : Nat → Int) (t : Nat),
      opBaseEndExecuteUsers inputs c t = c t - inputs.count t := by
  intro inputs
  induction inputs with
  | nil => intro c t; simp [opBaseEndExecuteUsers]
  | cons i is ih =>
    intro c t
    rw [show opBaseEndExecuteUsers (i :: is) c =
          opBaseEndExecuteUsers is (decreaseCurrUserCount c i) from rfl, ih]
    by_cases h : t = i <;>
      simp [decreaseCurrUserCount, h, List.count_cons] <;> omega

/-- Helper: wiring a list of operators on top of counts c adds the input
occurrences of each tensor. -/
theorem wireOps_apply : ∀ (ops : List (List Nat)) (c : Nat → Int) (t : Nat),
    ops.foldl (fun c op => opBaseCtorUsers op c) c t =
      c t + inputOccurrences ops t := by
  intro ops
  induction ops with
  | nil => intro c t; simp [inputOccurrences]
  | cons op rest ih =>
    intro c t
    simp only [List.foldl_cons]
    rw [ih, opBaseCtorUsers_apply]
    simp [inputOccurrences]
    omega

/-- Helper: running the end_execute stages of a list of operators subtracts
the input occurrences of each tensor. -/
theorem runEndExecutes_apply : ∀ (ops : List (List Nat)) (c : Nat → Int) (t : Nat),
    runEndExecutes ops c t = c t - inputOccurrences ops t := by
  intro ops
  induction ops with
  | nil => intro c t; simp [runEndExecutes, inputOccurrences]
  | cons op rest ih =>
    intro c t
    rw [show runEndExecutes (op :: rest) c =
          runEndExecutes rest (opBaseEndExecuteUsers op c) from rfl, ih,
      opBaseEndExecuteUsers_apply]
    simp [inputOccurrences]
    omega

/-- C8: wiring sets each tensor's pending-consumer count to the number of
input slots naming it; after the end_execute of any prefix of the pass the
count equals the occurrences in the not-yet-finished operators, so it never
goes negative, and after the complete pass it is exactly zero. -/
theorem user_count_balanced :
    (∀ (ops : List (List Nat)) (t : Nat),
        wireGraph ops t = (inputOccurrences ops t : Int)) ∧
    (∀ (done rest : List (List Nat)) (t : Nat),
        runEndExecutes done (wireGraph (done ++ rest)) t =
          (inputOccurrences rest t : Int)) ∧
    (∀ (done rest : List (List Nat)) (t : Nat),
        0 ≤ runEndExecutes done (wireGraph (done ++ rest)) t) ∧
    (∀ (ops : List (List Nat)) (t : Nat),
        runEndExecutes ops (wireGraph ops) t = 0) := by
  have hwire : ∀ (ops : List (List Nat)) (t : Nat),
      wireGraph ops t = (inputOccurrences ops t : Int) := by
    intro ops t
    rw [show wireGraph ops = ops.foldl (fun c op => opBaseCtorUsers op c)
        (fun _ => (0 : Int)) from rfl, wireOps_apply]
    simp
  have hsplit : ∀ (done rest : List (List Nat)) (t : Nat),
      inputOccurrences (done ++ rest) t =
        inputOccurrences done t + inputOccurrences rest t := by
    intro done rest t
    simp [inputOccurrences]
  have hafter : ∀ (done rest : List (List Nat)) (t : Nat),
      runEndExecutes done (wireGraph (done ++ rest)) t =
        (inputOccurrences rest t : Int) := by
    intro done rest t
    rw [runEndExecutes_apply, hwire, hsplit]
    push_cast
    omega
  refine ⟨hwire, hafter, fun done rest t => ?_, fun ops t => ?_⟩
  · rw [hafter]
    positivity
  · have h := hafter ops [] t
    simpa [inputOccurrences] using h

end InferLLM
